import Mathlib

/-!
Verification of the Alpine-DAV spack package recipes (vtk-h, ascent,
babelflow, pmt): a shallow embedding of the host-config emitters
(create_host_config), the install drivers, and the cmake_install methods,
with theorems settling the specification claims.
-/

namespace SpackRecipes

/-- Does pat occur at the head of the second list? -/
def leadMatch : List Char → List Char → Bool
  | [], _ => true
  | _ :: _, [] => false
  | p :: ps, c :: cs => (p == c) && leadMatch ps cs

/-- Does pat occur anywhere in the list? -/
def occursIn (pat : List Char) : List Char → Bool
  | [] => pat.isEmpty
  | c :: rest => leadMatch pat (c :: rest) || occursIn pat rest

/-- Does t occur in s as a substring?  For the nonempty patterns the
recipes test, the Python condition arg.count(t) == 0 is exactly
strContains arg t = false. -/
def strContains (s t : String) : Bool := occursIn t.data s.data

/-- One call to cfg.write: either plain text (comments, headers) or the
string produced by cmake_cache_entry for a named cache variable.  The
structured form records exactly the arguments of each write call in source
order; rendering recovers the bytes written. -/
inductive Write where
  | text (s : String)
  | entry (name value : String) (vtype : Option String)
deriving DecidableEq

/-- The cache-entry values emitted for the variable n, in file order. -/
def entriesFor (n : String) : List Write → List String
  | [] => []
  | .text _ :: ws => entriesFor n ws
  | .entry m v _ :: ws =>
      if m = n then v :: entriesFor n ws else entriesFor n ws

/-- How many cache entries for the variable n the write list contains. -/
def countEntry (n : String) (ws : List Write) : Nat :=
  (entriesFor n ws).length

/-- Process environment and host facts read by the recipes: the spack
compiler wrapper variables, the optional SYS_TYPE override, the hostname,
the current working directory, the result of which("cmake"), and the
os.path.isfile predicate. -/
structure Env where
  SPACK_CC : String
  SPACK_CXX : String
  SPACK_FC : String
  SYS_TYPE : Option String
  hostname : String
  cwd : String
  which_cmake : Option String
  isfile : String → Bool

/-- Run-dependent data a run could in principle observe (wall-clock time,
randomness).  The emitters never read any of it; carrying it as an explicit
argument lets determinism across runs be stated. -/
structure World where
  time : Nat
  rand : Nat

/-- spec.compiler_flags: the four flag lists the vtk-h recipe joins. -/
structure CompilerFlags where
  cppflags : List String
  cflags : List String
  cxxflags : List String
  fflags : List String

/-- The resolved build specification the orchestrator hands to the vtk-h
recipe: the eight boolean variants, the architecture and compiler strings,
the compiler flag lists, and the resolved dependency data the emitter
queries (cmake command path, vtk-m install dir, mpi wrapper paths, the
mpi bin dir, and whether the cmake dependency satisfies @3.10:). -/
structure VtkHSpec where
  shared : Bool
  test : Bool
  mpi : Bool
  serial : Bool
  cuda : Bool
  openmp : Bool
  logging : Bool
  contourtree : Bool
  architecture : String
  compiler : String
  compiler_flags : CompilerFlags
  cmake_command_path : String
  vtkm_dir : String
  mpi_mpicc : String
  mpi_mpicxx : String
  mpi_mpifc : String
  mpi_bin_dir : String
  cmake_ge_3_10 : Bool

/-- sys_type as computed by both recipes: spec.architecture, overridden by
the SYS_TYPE environment variable when it is set. -/
def sys_type (e : Env) (arch : String) : String :=
  match e.SYS_TYPE with
  | some t => t
  | none => arch

/-- os.path.isabs on POSIX: the path starts with a slash. -/
def os_path_isabs (p : String) : Bool :=
  match p.data with
  | [] => false
  | c :: _ => c = '/'

/-- os.path.abspath on POSIX, relative to the working directory cwd. -/
def os_path_abspath (cwd p : String) : String :=
  if os_path_isabs p then p else cwd ++ "/" ++ p

/-- Renders the writes in order into the bytes of the host-config file,
using the given rendering of a single cache entry. -/
def renderAll (render1 : String → String → Option String → String) :
    List Write → String
  | [] => ""
  | .text s :: ws => s ++ renderAll render1 ws
  | .entry n v t :: ws => render1 n v t ++ renderAll render1 ws

namespace VtkH

/-- cmake_cache_entry of the vtk-h recipe: when no vtype is given it is
BOOL for the values ON and OFF and PATH otherwise. -/
def cmake_cache_entry (name value : String) (vtype : Option String) :
    String :=
  let t := match vtype with
    | some t => t
    | none => if value = "ON" ∨ value = "OFF" then "BOOL" else "PATH"
  "set(" ++ name ++ " \"" ++ value ++ "\" CACHE " ++ t ++ " \"\")\n\n"

/-- Header block of create_host_config (banner, cmake path comment). -/
def header_writes (e : Env) (s : VtkHSpec) : List Write :=
  [ .text "##################################\n",
    .text "# spack generated host-config\n",
    .text "##################################\n",
    .text ("# " ++ sys_type e s.architecture ++ "-" ++ s.compiler ++ "\n"),
    .text "##################################\n\n",
    .text "# cmake from spack \n",
    .text ("# cmake executable path: " ++ s.cmake_command_path ++ "\n\n") ]

/-- Compiler settings block: the C and CXX compiler cache entries. -/
def compiler_writes (e : Env) (s : VtkHSpec) : List Write :=
  [ .text "#######\n",
    .text ("# using " ++ s.compiler ++ " compiler spec\n"),
    .text "#######\n\n",
    .text "# c compiler used by spack\n",
    .entry "CMAKE_C_COMPILER" e.SPACK_CC none,
    .text "# cpp compiler used by spack\n",
    .entry "CMAKE_CXX_COMPILER" e.SPACK_CXX none ]

/-- Shared vs static block: with cuda, static is forced; otherwise the
shared variant decides. -/
def shared_writes (s : VtkHSpec) : List Write :=
  if s.cuda then
    [ .entry "BUILD_SHARED_LIBS" "OFF" none ]
  else
    if s.shared then
      [ .entry "BUILD_SHARED_LIBS" "ON" none ]
    else
      [ .entry "BUILD_SHARED_LIBS" "OFF" none ]

/-- Global compiler flags block: cppflags are prepended to cflags and
cxxflags, and each entry is written only when the joined string is
nonempty (Python truthiness of the string). -/
def flags_writes (s : VtkHSpec) : List Write :=
  let cppflags0 := String.intercalate " " s.compiler_flags.cppflags
  let cppflags := if cppflags0 = "" then cppflags0 else cppflags0 ++ " "
  let cflags := cppflags ++ String.intercalate " " s.compiler_flags.cflags
  let cxxflags :=
    cppflags ++ String.intercalate " " s.compiler_flags.cxxflags
  let fflags := String.intercalate " " s.compiler_flags.fflags
  (if cflags = "" then []
   else [ Write.entry "CMAKE_C_FLAGS" cflags none ]) ++
  (if cxxflags = "" then []
   else [ Write.entry "CMAKE_CXX_FLAGS" cxxflags none ]) ++
  (if fflags = "" then []
   else [ Write.entry "CMAKE_Fortran_FLAGS" fflags none ])

/-- Options block for the test variant: with +test both test entries are
written OFF, without it both are written ON. -/
def test_writes (s : VtkHSpec) : List Write :=
  if s.test then
    [ .entry "ENABLE_TESTS" "OFF" none,
      .entry "BUILD_TESTING" "OFF" none ]
  else
    [ .entry "ENABLE_TESTS" "ON" none,
      .entry "BUILD_TESTING" "ON" none ]

/-- First logging block (under the Options comment banner). -/
def logging_writes (s : VtkHSpec) : List Write :=
  if s.logging then
    [ .entry "ENABLE_LOGGING" "ON" none ]
  else
    [ .entry "ENABLE_LOGGING" "OFF" none ]

/-- Contour tree block. -/
def contourtree_writes (s : VtkHSpec) : List Write :=
  if s.contourtree then
    [ .entry "ENABLE_FILTER_CONTOUR_TREE" "ON" none ]
  else
    [ .entry "ENABLE_FILTER_CONTOUR_TREE" "OFF" none ]

/-- OpenMP block. -/
def openmp_writes (s : VtkHSpec) : List Write :=
  .text "# enable openmp support\n" ::
  (if s.openmp then
    [ Write.entry "ENABLE_OPENMP" "ON" none ]
  else
    [ Write.entry "ENABLE_OPENMP" "OFF" none ])

/-- VTK-m dependency block. -/
def vtkm_writes (s : VtkHSpec) : List Write :=
  [ .text "# vtk-m support \n",
    .text "# vtk-m from spack\n",
    .entry "VTKM_DIR" s.vtkm_dir none ]

/-- Serial block. -/
def serial_writes (s : VtkHSpec) : List Write :=
  if s.serial then
    [ .entry "ENABLE_SERIAL" "ON" none ]
  else
    [ .entry "ENABLE_SERIAL" "OFF" none ]

/-- Second logging block (under the Logging comment banner): the source
repeats the first logging block verbatim. -/
def logging2_writes (s : VtkHSpec) : List Write :=
  if s.logging then
    [ .entry "ENABLE_LOGGING" "ON" none ]
  else
    [ .entry "ENABLE_LOGGING" "OFF" none ]

/-- MPI block: with +mpi the wrapper paths are recorded (replaced by the
cray wrapper names when the CXX wrapper is CC), and the mpiexec launcher
is recorded under the cmake-version-dependent variable name when the
launcher file exists. -/
def mpi_writes (e : Env) (s : VtkHSpec) : List Write :=
  .text "# MPI Support\n" ::
  (if s.mpi then
    let mpicc_path := if e.SPACK_CXX = "CC" then "cc" else s.mpi_mpicc
    let mpicxx_path := if e.SPACK_CXX = "CC" then "CC" else s.mpi_mpicxx
    let mpifc_path := if e.SPACK_CXX = "CC" then "ftn" else s.mpi_mpifc
    let mpiexe_bin := s.mpi_bin_dir ++ "/mpiexec"
    [ Write.entry "ENABLE_MPI" "ON" none,
      Write.entry "MPI_C_COMPILER" mpicc_path none,
      Write.entry "MPI_CXX_COMPILER" mpicxx_path none,
      Write.entry "MPI_Fortran_COMPILER" mpifc_path none ] ++
    (if e.isfile mpiexe_bin then
      (if s.cmake_ge_3_10 then
        [ Write.entry "MPIEXEC_EXECUTABLE" mpiexe_bin none ]
      else
        [ Write.entry "MPIEXEC" mpiexe_bin none ])
    else [])
  else
    [ Write.entry "ENABLE_MPI" "OFF" none ])

/-- CUDA block. -/
def cuda_writes (e : Env) (s : VtkHSpec) : List Write :=
  .text "# CUDA Support\n" ::
  (if s.cuda then
    [ Write.entry "ENABLE_CUDA" "ON" none,
      Write.entry "VTKm_ENABLE_CUDA:BOOL" "ON" none,
      Write.entry "CMAKE_CUDA_HOST_COMPILER" e.SPACK_CXX none ]
  else
    [ Write.entry "VTKm_ENABLE_CUDA:BOOL" "OFF" none,
      Write.entry "ENABLE_CUDA" "OFF" none ])

/-- Footer banner. -/
def footer_writes : List Write :=
  [ .text "##################################\n",
    .text "# end spack generated host-config\n",
    .text "##################################\n" ]

/-- All writes of VtkH.create_host_config, in source order. -/
def config_writes (e : Env) (s : VtkHSpec) : List Write :=
  header_writes e s ++ compiler_writes e s ++ shared_writes s ++
  flags_writes s ++ test_writes s ++ logging_writes s ++
  contourtree_writes s ++ openmp_writes s ++ vtkm_writes s ++
  serial_writes s ++ logging2_writes s ++ mpi_writes e s ++
  cuda_writes e s ++ footer_writes

/-- File name chosen by VtkH.create_host_config. -/
def host_cfg_fname (e : Env) (s : VtkHSpec) : String :=
  e.hostname ++ "-" ++ sys_type e s.architecture ++ "-" ++ s.compiler ++
  "-vtkh.cmake"

/-- VtkH.create_host_config: writes the file in the working directory and
returns the absolute path together with the bytes written.  The World
argument carries the run-only data the method never reads. -/
def create_host_config (_w : World) (e : Env) (s : VtkHSpec) :
    String × String :=
  ( os_path_abspath e.cwd (host_cfg_fname e s),
    renderAll cmake_cache_entry (config_writes e s) )

/-- The cmake argument list assembled by VtkH.install: std_cmake_args is
filtered (CMAKE_BUILD_TYPE arguments always dropped; RPATH arguments
dropped for a static build), then Release build type, the -C file and the
source dir are appended. -/
def install_cmake_args (s : VtkHSpec) (std_cmake_args : List String)
    (host_cfg : String) : List String :=
  (std_cmake_args.foldl
    (fun acc arg =>
      if strContains arg "CMAKE_BUILD_TYPE" = false then
        if s.shared then acc ++ [arg]
        else
          if strContains arg "RPATH" = false then acc ++ [arg] else acc
      else acc) []) ++
  ["-DCMAKE_BUILD_TYPE=Release"] ++ ["-C", host_cfg, "../src"]

end VtkH

/-- The resolved build specification the orchestrator hands to the ascent
recipe: the boolean variants (cmake is the variant the recipe tests with
"+cmake" in spec), the architecture and compiler strings, the optional
fortran compiler entry of the compiler record, and the resolved dependency
data the emitter queries. -/
structure AscentSpec where
  shared : Bool
  mpi : Bool
  python : Bool
  vtkh : Bool
  openmp : Bool
  cuda : Bool
  mfem : Bool
  adios : Bool
  doc : Bool
  cmake : Bool
  architecture : String
  compiler : String
  compiler_fc : Option String
  cmake_command_path : String
  conduit_dir : String
  python_command_path : String
  sphinx_bin_dir : String
  mpi_mpicc : String
  mpi_mpicxx : String
  mpi_mpifc : String
  mpi_bin_dir : String
  cmake_ge_3_10 : Bool
  vtkm_dir : String
  vtkh_dir : String
  mfem_dir : String
  adios_dir : String

namespace Ascent

/-- cmake_cache_entry of the ascent recipe: the type is always PATH. -/
def cmake_cache_entry (name value : String) : String :=
  "set(" ++ name ++ " \"" ++ value ++ "\" CACHE PATH \"\")\n\n"

/-- f_compiler as computed at the top of create_host_config: None unless
the compiler record carries a fortran entry and the SPACK_FC path names an
existing file. -/
def f_compiler (e : Env) (s : AscentSpec) : Option String :=
  match s.compiler_fc with
  | none => none
  | some _ => if e.isfile e.SPACK_FC then some e.SPACK_FC else none

/-- cmake_exe resolution: the cmake dependency when the cmake variant is
on, otherwise which("cmake"), raising RuntimeError when that finds
nothing. -/
def find_cmake (e : Env) (s : AscentSpec) : Except String String :=
  if s.cmake then .ok s.cmake_command_path
  else
    match e.which_cmake with
    | none => .error "failed to find CMake (and cmake variant is off)"
    | some p => .ok p

/-- Header block (banner, cmake path comment). -/
def header_writes (e : Env) (s : AscentSpec) (cmake_exe : String) :
    List Write :=
  [ .text "##################################\n",
    .text "# spack generated host-config\n",
    .text "##################################\n",
    .text ("# " ++ sys_type e s.architecture ++ "-" ++ s.compiler ++ "\n"),
    .text "##################################\n\n",
    .text "# cmake from spack \n",
    .text ("# cmake executable path: " ++ cmake_exe ++ "\n\n") ]

/-- Compiler settings block: the C and CXX compiler cache entries. -/
def compiler_writes (e : Env) (s : AscentSpec) : List Write :=
  [ .text "#######\n",
    .text ("# using " ++ s.compiler ++ " compiler spec\n"),
    .text "#######\n\n",
    .text "# c compiler used by spack\n",
    .entry "CMAKE_C_COMPILER" e.SPACK_CC none,
    .text "# cpp compiler used by spack\n",
    .entry "CMAKE_CXX_COMPILER" e.SPACK_CXX none ]

/-- Fortran block: with a fortran compiler, ENABLE_FORTRAN ON and the
compiler path; without one, a comment and ENABLE_FORTRAN OFF, with no
CMAKE_Fortran_COMPILER entry. -/
def fortran_writes (fc : Option String) : List Write :=
  .text "# fortran compiler used by spack\n" ::
  (match fc with
   | some f =>
      [ Write.entry "ENABLE_FORTRAN" "ON" none,
        Write.entry "CMAKE_Fortran_COMPILER" f none ]
   | none =>
      [ Write.text "# no fortran compiler found\n\n",
        Write.entry "ENABLE_FORTRAN" "OFF" none ])

/-- Shared vs static block: the shared variant alone decides. -/
def shared_writes (s : AscentSpec) : List Write :=
  if s.shared then
    [ .entry "BUILD_SHARED_LIBS" "ON" none ]
  else
    [ .entry "BUILD_SHARED_LIBS" "OFF" none ]

/-- Conduit dependency block. -/
def conduit_writes (s : AscentSpec) : List Write :=
  [ .text "# conduit from spack \n",
    .entry "CONDUIT_DIR" s.conduit_dir none ]

/-- Python block: the module install dir entry is written only when a
site-packages dir was passed (Python truthiness of py_site_pkgs_dir,
modelled as presence of the optional argument). -/
def python_writes (s : AscentSpec) (py_site_pkgs_dir : Option String) :
    List Write :=
  .text "# Python Support\n" ::
  (if s.python then
    [ Write.text "# Enable python module builds\n",
      Write.entry "ENABLE_PYTHON" "ON" none,
      Write.text "# python from spack \n",
      Write.entry "PYTHON_EXECUTABLE" s.python_command_path none ] ++
    (match py_site_pkgs_dir with
     | some d => [ Write.entry "PYTHON_MODULE_INSTALL_PREFIX" d none ]
     | none => [])
  else
    [ Write.entry "ENABLE_PYTHON" "OFF" none ])

/-- Docs block: ENABLE_DOCS is ON (with the sphinx path) only when both
the doc and python variants are on. -/
def docs_writes (s : AscentSpec) : List Write :=
  if s.doc && s.python then
    [ .entry "ENABLE_DOCS" "ON" none,
      .text "# sphinx from spack \n",
      .entry "SPHINX_EXECUTABLE" (s.sphinx_bin_dir ++ "/sphinx-build")
        none ]
  else
    [ .entry "ENABLE_DOCS" "OFF" none ]

/-- MPI block: wrapper paths, and the mpiexec launcher under the
cmake-version-dependent variable name when the launcher file exists. -/
def mpi_writes (e : Env) (s : AscentSpec) : List Write :=
  .text "# MPI Support\n" ::
  (if s.mpi then
    let mpiexe_bin := s.mpi_bin_dir ++ "/mpiexec"
    [ Write.entry "ENABLE_MPI" "ON" none,
      Write.entry "MPI_C_COMPILER" s.mpi_mpicc none,
      Write.entry "MPI_CXX_COMPILER" s.mpi_mpicxx none,
      Write.entry "MPI_Fortran_COMPILER" s.mpi_mpifc none ] ++
    (if e.isfile mpiexe_bin then
      (if s.cmake_ge_3_10 then
        [ Write.entry "MPIEXEC_EXECUTABLE" mpiexe_bin none ]
      else
        [ Write.entry "MPIEXEC" mpiexe_bin none ])
    else [])
  else
    [ Write.entry "ENABLE_MPI" "OFF" none ])

/-- CUDA block. -/
def cuda_writes (s : AscentSpec) : List Write :=
  .text "# CUDA Support\n" ::
  (if s.cuda then
    [ Write.entry "ENABLE_CUDA" "ON" none ]
  else
    [ Write.entry "ENABLE_CUDA" "OFF" none ])

/-- OpenMP block. -/
def openmp_writes (s : AscentSpec) : List Write :=
  if s.openmp then
    [ .entry "ENABLE_OPENMP" "ON" none ]
  else
    [ .entry "ENABLE_OPENMP" "OFF" none ]

/-- VTK-h block: dependency dirs only when the vtkh variant is on. -/
def vtkh_writes (s : AscentSpec) : List Write :=
  .text "# vtk-h support \n" ::
  (if s.vtkh then
    [ Write.text "# vtk-m from spack\n",
      Write.entry "VTKM_DIR" s.vtkm_dir none,
      Write.text "# vtk-h from spack\n",
      Write.entry "VTKH_DIR" s.vtkh_dir none ]
  else
    [ Write.text "# vtk-h not built by spack \n" ])

/-- MFEM block. -/
def mfem_writes (s : AscentSpec) : List Write :=
  if s.mfem then
    [ .text "# mfem from spack \n",
      .entry "MFEM_DIR" s.mfem_dir none ]
  else
    [ .text "# mfem not built by spack \n" ]

/-- Adios block. -/
def adios_writes (s : AscentSpec) : List Write :=
  .text "# adios support\n" ::
  (if s.adios then
    [ Write.entry "ADIOS_DIR" s.adios_dir none ]
  else
    [ Write.text "# adios not built by spack \n" ])

/-- Footer banner. -/
def footer_writes : List Write :=
  [ .text "##################################\n",
    .text "# end spack generated host-config\n",
    .text "##################################\n" ]

/-- All writes of Ascent.create_host_config, in source order, with the
resolved cmake path and the f_compiler result as arguments. -/
def config_writes (e : Env) (s : AscentSpec)
    (py_site_pkgs_dir : Option String) (fc : Option String)
    (cmake_exe : String) : List Write :=
  header_writes e s cmake_exe ++ compiler_writes e s ++
  fortran_writes fc ++ shared_writes s ++ conduit_writes s ++
  python_writes s py_site_pkgs_dir ++ docs_writes s ++ mpi_writes e s ++
  cuda_writes s ++ openmp_writes s ++ vtkh_writes s ++ mfem_writes s ++
  adios_writes s ++ footer_writes

/-- File name chosen by Ascent.create_host_config. -/
def host_cfg_fname (e : Env) (s : AscentSpec) : String :=
  e.hostname ++ "-" ++ sys_type e s.architecture ++ "-" ++ s.compiler ++
  "-ascent.cmake"

/-- Ascent.create_host_config: raises when cmake cannot be located,
otherwise writes the file and returns the absolute path together with the
bytes written.  The World argument carries the run-only data the method
never reads. -/
def create_host_config (_w : World) (e : Env) (s : AscentSpec)
    (py_site_pkgs_dir : Option String) :
    Except String (String × String) :=
  match find_cmake e s with
  | .error m => .error m
  | .ok cmake_exe =>
      .ok ( os_path_abspath e.cwd (host_cfg_fname e s),
            renderAll (fun n v _ => cmake_cache_entry n v)
              (config_writes e s py_site_pkgs_dir (f_compiler e s)
                cmake_exe) )

/-- The cmake argument list assembled by Ascent.install: std_cmake_args
unchanged for a shared build; RPATH arguments dropped for a static build;
then the -C file and the source dir are appended. -/
def install_cmake_args (s : AscentSpec) (std_cmake_args : List String)
    (host_cfg : String) : List String :=
  (if s.shared then std_cmake_args
   else
    std_cmake_args.foldl
      (fun acc arg =>
        if strContains arg "RPATH" = false then acc ++ [arg] else acc)
      []) ++
  ["-C", host_cfg, "../src"]

end Ascent

/-- Modelled from the spec: the names visible in the module scope of the
babelflow and pmt recipe files.  The star import from the host package
manager provides the build helpers the other recipes use (the
std_cmake_args list, make, cmake, install, working_dir, join_path, which,
and the declarative hooks); it provides no name cmake_args.  Methods of
the class (such as the cmake_args method of the pmt recipe) are not
visible as bare names inside another method body. -/
def spack_module_names : List String :=
  [ "Package", "CMakePackage", "CudaPackage", "version", "variant",
    "depends_on", "extends", "maintainers", "std_cmake_args", "make",
    "cmake", "install", "working_dir", "join_path", "which" ]

/-- A statement of the cmake_install bodies of the babelflow and pmt
recipes: an append to a named list variable, or a call to a named
helper. -/
inductive Stmt where
  | append_to (listName : String) (val : String)
  | call (f : String) (args : List String)

/-- Executes statements under Python name resolution against the given
scope names: a statement whose name is not in scope stops execution with a
NameError; the second component is the trace of helper calls actually
performed before any error. -/
def exec_stmts (names : List String) :
    List Stmt → Except String Unit × List (String × List String)
  | [] => (.ok (), [])
  | .append_to n _ :: rest =>
      if n ∈ names then exec_stmts names rest
      else (.error ("NameError: name " ++ n ++ " is not defined"), [])
  | .call f args :: rest =>
      if f ∈ names then
        let r := exec_stmts names rest
        (r.1, (f, args) :: r.2)
      else (.error ("NameError: name " ++ f ++ " is not defined"), [])

/-- The body of cmake_install, identical in the babelflow and pmt recipes:
append a BUILD_SHARED_LIBS define to cmake_args according to the shared
variant, then make() and make("install"). -/
def cmake_install_body (shared : Bool) : List Stmt :=
  (if shared then
    [ Stmt.append_to "cmake_args" "-DBUILD_SHARED_LIBS=ON" ]
  else
    [ Stmt.append_to "cmake_args" "-DBUILD_SHARED_LIBS=OFF" ]) ++
  [ Stmt.call "make" [], Stmt.call "make" ["install"] ]

namespace Babelflow

/-- Babelflow.cmake_install, run in the module scope of the babelflow
recipe file. -/
def cmake_install (shared : Bool) :
    Except String Unit × List (String × List String) :=
  exec_stmts spack_module_names (cmake_install_body shared)

end Babelflow

namespace Pmt

/-- Pmt.cmake_install, run in the module scope of the pmt recipe file
(the cmake_args method of the class is not a module-scope name). -/
def cmake_install (shared : Bool) :
    Except String Unit × List (String × List String) :=
  exec_stmts spack_module_names (cmake_install_body shared)

end Pmt

/-! Helper lemmas about entriesFor and rendering. -/

lemma entriesFor_append (n : String) (l1 l2 : List Write) :
    entriesFor n (l1 ++ l2) = entriesFor n l1 ++ entriesFor n l2 := by
  induction l1 with
  | nil => rfl
  | cons w ws ih =>
    cases w with
    | text s => simpa [entriesFor] using ih
    | entry m v t =>
      by_cases h : m = n <;> simp [entriesFor, h, ih]

lemma entriesFor_ite (n : String) (c : Prop) [Decidable c]
    (l1 l2 : List Write) :
    entriesFor n (if c then l1 else l2) =
      if c then entriesFor n l1 else entriesFor n l2 := by
  split <;> rfl

lemma length_ite (c : Prop) [Decidable c] (l1 l2 : List String) :
    (if c then l1 else l2).length =
      if c then l1.length else l2.length := by
  split <;> rfl

lemma renderAll_append (r : String → String → Option String → String)
    (l1 l2 : List Write) :
    renderAll r (l1 ++ l2) = renderAll r l1 ++ renderAll r l2 := by
  induction l1 with
  | nil => simp [renderAll]
  | cons w ws ih =>
    cases w with
    | text s => simp [renderAll, ih, String.append_assoc]
    | entry m v t => simp [renderAll, ih, String.append_assoc]

lemma string_append_ne_empty_left (s t : String) (h : s ≠ "") :
    s ++ t ≠ "" := by
  intro heq
  apply h
  have hd := congrArg String.data heq
  rw [String.data_append] at hd
  have hs : s.data = [] := (List.append_eq_nil.mp hd).1
  cases s with
  | mk d => cases hd2 : d with
    | nil => rfl
    | cons a l => rw [hd2] at hs; exact absurd hs (by simp)

lemma os_path_isabs_append (s t : String) (h : os_path_isabs s = true) :
    os_path_isabs (s ++ t) = true := by
  unfold os_path_isabs at *
  rw [String.data_append]
  cases hs : s.data with
  | nil => rw [hs] at h; simp at h
  | cons a l =>
    rw [hs] at h
    rw [List.cons_append]
    exact h

/-! Concrete example inputs used by witnesses and counterexamples. -/

/-- A concrete environment with an absolute working directory. -/
def env0 : Env :=
  { SPACK_CC := "/usr/bin/gcc"
    SPACK_CXX := "/usr/bin/gxx"
    SPACK_FC := "/usr/bin/gfortran"
    SYS_TYPE := none
    hostname := "node1"
    cwd := "/tmp/build"
    which_cmake := some "/usr/bin/cmake"
    isfile := fun _ => false }

/-- A concrete environment in which which("cmake") finds nothing. -/
def envNoCmake : Env :=
  { env0 with which_cmake := none }

/-- Empty compiler flag lists. -/
def flags0 : CompilerFlags :=
  { cppflags := [], cflags := [], cxxflags := [], fflags := [] }

/-- A concrete vtk-h build specification with default variants. -/
def vtkhSpec0 : VtkHSpec :=
  { shared := true, test := true, mpi := true, serial := true
    cuda := false, openmp := true, logging := false, contourtree := false
    architecture := "linux-x86_64", compiler := "gcc@9.3.0"
    compiler_flags := flags0, cmake_command_path := "/usr/bin/cmake"
    vtkm_dir := "/opt/vtkm", mpi_mpicc := "/usr/bin/mpicc"
    mpi_mpicxx := "/usr/bin/mpicxx", mpi_mpifc := "/usr/bin/mpifc"
    mpi_bin_dir := "/opt/mpi/bin", cmake_ge_3_10 := true }

/-- A concrete vtk-h build specification with cuda and shared both on. -/
def vtkhSpecCuda : VtkHSpec :=
  { vtkhSpec0 with cuda := true, shared := true }

/-- A concrete ascent build specification with cuda and shared both on. -/
def ascentSpec0 : AscentSpec :=
  { shared := true, mpi := true, python := false, vtkh := true
    openmp := true, cuda := true, mfem := false, adios := false
    doc := false, cmake := true
    architecture := "linux-x86_64", compiler := "gcc@9.3.0"
    compiler_fc := none, cmake_command_path := "/usr/bin/cmake"
    conduit_dir := "/opt/conduit"
    python_command_path := "/usr/bin/python"
    sphinx_bin_dir := "/opt/sphinx/bin"
    mpi_mpicc := "/usr/bin/mpicc", mpi_mpicxx := "/usr/bin/mpicxx"
    mpi_mpifc := "/usr/bin/mpifc", mpi_bin_dir := "/opt/mpi/bin"
    cmake_ge_3_10 := true, vtkm_dir := "/opt/vtkm"
    vtkh_dir := "/opt/vtkh", mfem_dir := "/opt/mfem"
    adios_dir := "/opt/adios" }

/-- A concrete ascent build specification with the cmake variant off. -/
def ascentSpecNoCmake : AscentSpec :=
  { ascentSpec0 with cmake := false }

/-- A concrete world (run-only data: time and randomness). -/
def world0 : World := { time := 0, rand := 0 }

/-! Characterization of the cache entries of each emitter as an explicit
list of name-value pairs, from which the per-variable facts follow. -/

/-- The name-value pairs of the cache entries in a write list, in file
order. -/
def entryPairs : List Write → List (String × String)
  | [] => []
  | .text _ :: ws => entryPairs ws
  | .entry n v _ :: ws => (n, v) :: entryPairs ws

lemma entryPairs_append (l1 l2 : List Write) :
    entryPairs (l1 ++ l2) = entryPairs l1 ++ entryPairs l2 := by
  induction l1 with
  | nil => rfl
  | cons w ws ih => cases w <;> simp [entryPairs, ih]

lemma entryPairs_ite (c : Prop) [Decidable c] (l1 l2 : List Write) :
    entryPairs (if c then l1 else l2) =
      if c then entryPairs l1 else entryPairs l2 := by
  split <;> rfl

lemma entriesFor_eq_pairs (n : String) (ws : List Write) :
    entriesFor n ws =
      (entryPairs ws).filterMap
        (fun p => if p.1 = n then some p.2 else none) := by
  induction ws with
  | nil => rfl
  | cons w l ih =>
    cases w with
    | text s => simpa [entriesFor, entryPairs] using ih
    | entry m v t =>
      by_cases h : m = n <;> simp [entriesFor, entryPairs, h, ih]

lemma filterMap_ite (f : String × String → Option String) (c : Prop)
    [Decidable c] (l1 l2 : List (String × String)) :
    (if c then l1 else l2).filterMap f =
      if c then l1.filterMap f else l2.filterMap f := by
  split <;> rfl

set_option maxHeartbeats 1000000 in
/-- The cache entries of the vtk-h emitter, block by block. -/
lemma vtkh_pairs (e : Env) (s : VtkHSpec) :
    entryPairs (VtkH.config_writes e s) =
  [("CMAKE_C_COMPILER", e.SPACK_CC),
   ("CMAKE_CXX_COMPILER", e.SPACK_CXX)] ++
  (if s.cuda then [("BUILD_SHARED_LIBS", "OFF")]
   else if s.shared then [("BUILD_SHARED_LIBS", "ON")]
   else [("BUILD_SHARED_LIBS", "OFF")]) ++
  (let cppflags0 := String.intercalate " " s.compiler_flags.cppflags
   let cppflags := if cppflags0 = "" then cppflags0 else cppflags0 ++ " "
   let cflags := cppflags ++ String.intercalate " " s.compiler_flags.cflags
   let cxxflags :=
     cppflags ++ String.intercalate " " s.compiler_flags.cxxflags
   let fflags := String.intercalate " " s.compiler_flags.fflags
   (if cflags = "" then [] else [("CMAKE_C_FLAGS", cflags)]) ++
   (if cxxflags = "" then [] else [("CMAKE_CXX_FLAGS", cxxflags)]) ++
   (if fflags = "" then [] else [("CMAKE_Fortran_FLAGS", fflags)])) ++
  (if s.test then [("ENABLE_TESTS", "OFF"), ("BUILD_TESTING", "OFF")]
   else [("ENABLE_TESTS", "ON"), ("BUILD_TESTING", "ON")]) ++
  (if s.logging then [("ENABLE_LOGGING", "ON")]
   else [("ENABLE_LOGGING", "OFF")]) ++
  (if s.contourtree then [("ENABLE_FILTER_CONTOUR_TREE", "ON")]
   else [("ENABLE_FILTER_CONTOUR_TREE", "OFF")]) ++
  (if s.openmp then [("ENABLE_OPENMP", "ON")]
   else [("ENABLE_OPENMP", "OFF")]) ++
  [("VTKM_DIR", s.vtkm_dir)] ++
  (if s.serial then [("ENABLE_SERIAL", "ON")]
   else [("ENABLE_SERIAL", "OFF")]) ++
  (if s.logging then [("ENABLE_LOGGING", "ON")]
   else [("ENABLE_LOGGING", "OFF")]) ++
  (if s.mpi then
    [("ENABLE_MPI", "ON"),
     ("MPI_C_COMPILER",
       if e.SPACK_CXX = "CC" then "cc" else s.mpi_mpicc),
     ("MPI_CXX_COMPILER",
       if e.SPACK_CXX = "CC" then "CC" else s.mpi_mpicxx),
     ("MPI_Fortran_COMPILER",
       if e.SPACK_CXX = "CC" then "ftn" else s.mpi_mpifc)] ++
    (if e.isfile (s.mpi_bin_dir ++ "/mpiexec") then
      (if s.cmake_ge_3_10 then
        [("MPIEXEC_EXECUTABLE", s.mpi_bin_dir ++ "/mpiexec")]
      else [("MPIEXEC", s.mpi_bin_dir ++ "/mpiexec")])
    else [])
   else [("ENABLE_MPI", "OFF")]) ++
  (if s.cuda then
    [("ENABLE_CUDA", "ON"), ("VTKm_ENABLE_CUDA:BOOL", "ON"),
     ("CMAKE_CUDA_HOST_COMPILER", e.SPACK_CXX)]
   else [("VTKm_ENABLE_CUDA:BOOL", "OFF"), ("ENABLE_CUDA", "OFF")]) := by
  simp only [VtkH.config_writes, VtkH.header_writes, VtkH.compiler_writes,
    VtkH.shared_writes, VtkH.flags_writes, VtkH.test_writes,
    VtkH.logging_writes, VtkH.contourtree_writes, VtkH.openmp_writes,
    VtkH.vtkm_writes, VtkH.serial_writes, VtkH.logging2_writes,
    VtkH.mpi_writes, VtkH.cuda_writes, VtkH.footer_writes,
    entryPairs_append, entryPairs_ite, entryPairs]
  simp [entryPairs_append, entryPairs_ite, entryPairs]

set_option maxHeartbeats 1000000 in
/-- The cache entries of the ascent emitter, block by block. -/
lemma asc_pairs (e : Env) (s : AscentSpec) (py fc : Option String)
    (cx : String) :
    entryPairs (Ascent.config_writes e s py fc cx) =
  [("CMAKE_C_COMPILER", e.SPACK_CC),
   ("CMAKE_CXX_COMPILER", e.SPACK_CXX)] ++
  (match fc with
   | some f => [("ENABLE_FORTRAN", "ON"), ("CMAKE_Fortran_COMPILER", f)]
   | none => [("ENABLE_FORTRAN", "OFF")]) ++
  (if s.shared then [("BUILD_SHARED_LIBS", "ON")]
   else [("BUILD_SHARED_LIBS", "OFF")]) ++
  [("CONDUIT_DIR", s.conduit_dir)] ++
  (if s.python then
    [("ENABLE_PYTHON", "ON"),
     ("PYTHON_EXECUTABLE", s.python_command_path)] ++
    (match py with
     | some d => [("PYTHON_MODULE_INSTALL_PREFIX", d)]
     | none => [])
   else [("ENABLE_PYTHON", "OFF")]) ++
  (if s.doc && s.python then
    [("ENABLE_DOCS", "ON"),
     ("SPHINX_EXECUTABLE", s.sphinx_bin_dir ++ "/sphinx-build")]
   else [("ENABLE_DOCS", "OFF")]) ++
  (if s.mpi then
    [("ENABLE_MPI", "ON"), ("MPI_C_COMPILER", s.mpi_mpicc),
     ("MPI_CXX_COMPILER", s.mpi_mpicxx),
     ("MPI_Fortran_COMPILER", s.mpi_mpifc)] ++
    (if e.isfile (s.mpi_bin_dir ++ "/mpiexec") then
      (if s.cmake_ge_3_10 then
        [("MPIEXEC_EXECUTABLE", s.mpi_bin_dir ++ "/mpiexec")]
      else [("MPIEXEC", s.mpi_bin_dir ++ "/mpiexec")])
    else [])
   else [("ENABLE_MPI", "OFF")]) ++
  (if s.cuda then [("ENABLE_CUDA", "ON")]
   else [("ENABLE_CUDA", "OFF")]) ++
  (if s.openmp then [("ENABLE_OPENMP", "ON")]
   else [("ENABLE_OPENMP", "OFF")]) ++
  (if s.vtkh then [("VTKM_DIR", s.vtkm_dir), ("VTKH_DIR", s.vtkh_dir)]
   else []) ++
  (if s.mfem then [("MFEM_DIR", s.mfem_dir)] else []) ++
  (if s.adios then [("ADIOS_DIR", s.adios_dir)] else []) := by
  simp only [Ascent.config_writes, Ascent.header_writes,
    Ascent.compiler_writes, Ascent.fortran_writes, Ascent.shared_writes,
    Ascent.conduit_writes, Ascent.python_writes, Ascent.docs_writes,
    Ascent.mpi_writes, Ascent.cuda_writes, Ascent.openmp_writes,
    Ascent.vtkh_writes, Ascent.mfem_writes, Ascent.adios_writes,
    Ascent.footer_writes, entryPairs_append, entryPairs_ite, entryPairs]
  cases fc <;> cases py <;>
    simp [entryPairs_append, entryPairs_ite, entryPairs]

/-! Per-variable cache-entry values of the vtk-h emitter. -/

lemma vtkh_val_BUILD_SHARED_LIBS (e : Env) (s : VtkHSpec) :
    entriesFor "BUILD_SHARED_LIBS" (VtkH.config_writes e s) =
      (if s.cuda then ["OFF"]
       else if s.shared then ["ON"] else ["OFF"]) := by
  rw [entriesFor_eq_pairs, vtkh_pairs]
  simp +decide only [List.filterMap_append, List.filterMap_cons,
    List.filterMap_nil, filterMap_ite, ite_self, if_true, if_false,
    List.append_nil, List.nil_append]

lemma vtkh_val_ENABLE_TESTS (e : Env) (s : VtkHSpec) :
    entriesFor "ENABLE_TESTS" (VtkH.config_writes e s) =
      (if s.test then ["OFF"] else ["ON"]) := by
  rw [entriesFor_eq_pairs, vtkh_pairs]
  simp +decide only [List.filterMap_append, List.filterMap_cons,
    List.filterMap_nil, filterMap_ite, ite_self, if_true, if_false,
    List.append_nil, List.nil_append]

lemma vtkh_val_BUILD_TESTING (e : Env) (s : VtkHSpec) :
    entriesFor "BUILD_TESTING" (VtkH.config_writes e s) =
      (if s.test then ["OFF"] else ["ON"]) := by
  rw [entriesFor_eq_pairs, vtkh_pairs]
  simp +decide only [List.filterMap_append, List.filterMap_cons,
    List.filterMap_nil, filterMap_ite, ite_self, if_true, if_false,
    List.append_nil, List.nil_append]

lemma vtkh_val_ENABLE_LOGGING (e : Env) (s : VtkHSpec) :
    entriesFor "ENABLE_LOGGING" (VtkH.config_writes e s) =
      (if s.logging then ["ON"] else ["OFF"]) ++
      (if s.logging then ["ON"] else ["OFF"]) := by
  rw [entriesFor_eq_pairs, vtkh_pairs]
  simp +decide only [List.filterMap_append, List.filterMap_cons,
    List.filterMap_nil, filterMap_ite, ite_self, if_true, if_false,
    List.append_nil, List.nil_append]

lemma vtkh_val_ENABLE_FILTER_CONTOUR_TREE (e : Env) (s : VtkHSpec) :
    entriesFor "ENABLE_FILTER_CONTOUR_TREE" (VtkH.config_writes e s) =
      (if s.contourtree then ["ON"] else ["OFF"]) := by
  rw [entriesFor_eq_pairs, vtkh_pairs]
  simp +decide only [List.filterMap_append, List.filterMap_cons,
    List.filterMap_nil, filterMap_ite, ite_self, if_true, if_false,
    List.append_nil, List.nil_append]

lemma vtkh_val_ENABLE_OPENMP (e : Env) (s : VtkHSpec) :
    entriesFor "ENABLE_OPENMP" (VtkH.config_writes e s) =
      (if s.openmp then ["ON"] else ["OFF"]) := by
  rw [entriesFor_eq_pairs, vtkh_pairs]
  simp +decide only [List.filterMap_append, List.filterMap_cons,
    List.filterMap_nil, filterMap_ite, ite_self, if_true, if_false,
    List.append_nil, List.nil_append]

lemma vtkh_val_ENABLE_SERIAL (e : Env) (s : VtkHSpec) :
    entriesFor "ENABLE_SERIAL" (VtkH.config_writes e s) =
      (if s.serial then ["ON"] else ["OFF"]) := by
  rw [entriesFor_eq_pairs, vtkh_pairs]
  simp +decide only [List.filterMap_append, List.filterMap_cons,
    List.filterMap_nil, filterMap_ite, ite_self, if_true, if_false,
    List.append_nil, List.nil_append]

lemma vtkh_val_ENABLE_MPI (e : Env) (s : VtkHSpec) :
    entriesFor "ENABLE_MPI" (VtkH.config_writes e s) =
      (if s.mpi then ["ON"] else ["OFF"]) := by
  rw [entriesFor_eq_pairs, vtkh_pairs]
  simp +decide only [List.filterMap_append, List.filterMap_cons,
    List.filterMap_nil, filterMap_ite, ite_self, if_true, if_false,
    List.append_nil, List.nil_append]

lemma vtkh_val_ENABLE_CUDA (e : Env) (s : VtkHSpec) :
    entriesFor "ENABLE_CUDA" (VtkH.config_writes e s) =
      (if s.cuda then ["ON"] else ["OFF"]) := by
  rw [entriesFor_eq_pairs, vtkh_pairs]
  simp +decide only [List.filterMap_append, List.filterMap_cons,
    List.filterMap_nil, filterMap_ite, ite_self, if_true, if_false,
    List.append_nil, List.nil_append]

lemma vtkh_val_VTKm_ENABLE_CUDA (e : Env) (s : VtkHSpec) :
    entriesFor "VTKm_ENABLE_CUDA:BOOL" (VtkH.config_writes e s) =
      (if s.cuda then ["ON"] else ["OFF"]) := by
  rw [entriesFor_eq_pairs, vtkh_pairs]
  simp +decide only [List.filterMap_append, List.filterMap_cons,
    List.filterMap_nil, filterMap_ite, ite_self, if_true, if_false,
    List.append_nil, List.nil_append]

/-! Per-variable cache-entry values of the ascent emitter. -/

lemma asc_val_BUILD_SHARED_LIBS (e : Env) (s : AscentSpec)
    (py fc : Option String) (cx : String) :
    entriesFor "BUILD_SHARED_LIBS" (Ascent.config_writes e s py fc cx) =
      (if s.shared then ["ON"] else ["OFF"]) := by
  rw [entriesFor_eq_pairs, asc_pairs]
  cases fc <;> cases py <;>
    simp +decide only [List.filterMap_append, List.filterMap_cons,
      List.filterMap_nil, filterMap_ite, ite_self, if_true, if_false,
      List.append_nil, List.nil_append]

lemma asc_val_ENABLE_FORTRAN (e : Env) (s : AscentSpec)
    (py fc : Option String) (cx : String) :
    entriesFor "ENABLE_FORTRAN" (Ascent.config_writes e s py fc cx) =
      [if fc.isSome then "ON" else "OFF"] := by
  rw [entriesFor_eq_pairs, asc_pairs]
  cases fc <;> cases py <;>
    simp +decide only [List.filterMap_append, List.filterMap_cons,
      List.filterMap_nil, filterMap_ite, ite_self, if_true, if_false,
      List.append_nil, List.nil_append]
  all_goals rfl

lemma asc_val_CMAKE_Fortran_COMPILER (e : Env) (s : AscentSpec)
    (py fc : Option String) (cx : String) :
    entriesFor "CMAKE_Fortran_COMPILER"
        (Ascent.config_writes e s py fc cx) = fc.toList := by
  rw [entriesFor_eq_pairs, asc_pairs]
  cases fc <;> cases py <;>
    simp +decide only [List.filterMap_append, List.filterMap_cons,
      List.filterMap_nil, filterMap_ite, ite_self, if_true, if_false,
      List.append_nil, List.nil_append, Option.toList]

lemma asc_val_ENABLE_PYTHON (e : Env) (s : AscentSpec)
    (py fc : Option String) (cx : String) :
    entriesFor "ENABLE_PYTHON" (Ascent.config_writes e s py fc cx) =
      (if s.python then ["ON"] else ["OFF"]) := by
  rw [entriesFor_eq_pairs, asc_pairs]
  cases fc <;> cases py <;>
    simp +decide only [List.filterMap_append, List.filterMap_cons,
      List.filterMap_nil, filterMap_ite, ite_self, if_true, if_false,
      List.append_nil, List.nil_append]

lemma asc_val_ENABLE_DOCS (e : Env) (s : AscentSpec)
    (py fc : Option String) (cx : String) :
    entriesFor "ENABLE_DOCS" (Ascent.config_writes e s py fc cx) =
      (if s.doc && s.python then ["ON"] else ["OFF"]) := by
  rw [entriesFor_eq_pairs, asc_pairs]
  cases fc <;> cases py <;>
    simp +decide only [List.filterMap_append, List.filterMap_cons,
      List.filterMap_nil, filterMap_ite, ite_self, if_true, if_false,
      List.append_nil, List.nil_append]

lemma asc_val_ENABLE_MPI (e : Env) (s : AscentSpec)
    (py fc : Option String) (cx : String) :
    entriesFor "ENABLE_MPI" (Ascent.config_writes e s py fc cx) =
      (if s.mpi then ["ON"] else ["OFF"]) := by
  rw [entriesFor_eq_pairs, asc_pairs]
  cases fc <;> cases py <;>
    simp +decide only [List.filterMap_append, List.filterMap_cons,
      List.filterMap_nil, filterMap_ite, ite_self, if_true, if_false,
      List.append_nil, List.nil_append]

lemma asc_val_ENABLE_CUDA (e : Env) (s : AscentSpec)
    (py fc : Option String) (cx : String) :
    entriesFor "ENABLE_CUDA" (Ascent.config_writes e s py fc cx) =
      (if s.cuda then ["ON"] else ["OFF"]) := by
  rw [entriesFor_eq_pairs, asc_pairs]
  cases fc <;> cases py <;>
    simp +decide only [List.filterMap_append, List.filterMap_cons,
      List.filterMap_nil, filterMap_ite, ite_self, if_true, if_false,
      List.append_nil, List.nil_append]

lemma asc_val_ENABLE_OPENMP (e : Env) (s : AscentSpec)
    (py fc : Option String) (cx : String) :
    entriesFor "ENABLE_OPENMP" (Ascent.config_writes e s py fc cx) =
      (if s.openmp then ["ON"] else ["OFF"]) := by
  rw [entriesFor_eq_pairs, asc_pairs]
  cases fc <;> cases py <;>
    simp +decide only [List.filterMap_append, List.filterMap_cons,
      List.filterMap_nil, filterMap_ite, ite_self, if_true, if_false,
      List.append_nil, List.nil_append]

lemma asc_val_VTKM_DIR (e : Env) (s : AscentSpec)
    (py fc : Option String) (cx : String) :
    entriesFor "VTKM_DIR" (Ascent.config_writes e s py fc cx) =
      (if s.vtkh then [s.vtkm_dir] else []) := by
  rw [entriesFor_eq_pairs, asc_pairs]
  cases fc <;> cases py <;>
    simp +decide only [List.filterMap_append, List.filterMap_cons,
      List.filterMap_nil, filterMap_ite, ite_self, if_true, if_false,
      List.append_nil, List.nil_append]

lemma asc_val_VTKH_DIR (e : Env) (s : AscentSpec)
    (py fc : Option String) (cx : String) :
    entriesFor "VTKH_DIR" (Ascent.config_writes e s py fc cx) =
      (if s.vtkh then [s.vtkh_dir] else []) := by
  rw [entriesFor_eq_pairs, asc_pairs]
  cases fc <;> cases py <;>
    simp +decide only [List.filterMap_append, List.filterMap_cons,
      List.filterMap_nil, filterMap_ite, ite_self, if_true, if_false,
      List.append_nil, List.nil_append]

lemma asc_val_MFEM_DIR (e : Env) (s : AscentSpec)
    (py fc : Option String) (cx : String) :
    entriesFor "MFEM_DIR" (Ascent.config_writes e s py fc cx) =
      (if s.mfem then [s.mfem_dir] else []) := by
  rw [entriesFor_eq_pairs, asc_pairs]
  cases fc <;> cases py <;>
    simp +decide only [List.filterMap_append, List.filterMap_cons,
      List.filterMap_nil, filterMap_ite, ite_self, if_true, if_false,
      List.append_nil, List.nil_append]

lemma asc_val_ADIOS_DIR (e : Env) (s : AscentSpec)
    (py fc : Option String) (cx : String) :
    entriesFor "ADIOS_DIR" (Ascent.config_writes e s py fc cx) =
      (if s.adios then [s.adios_dir] else []) := by
  rw [entriesFor_eq_pairs, asc_pairs]
  cases fc <;> cases py <;>
    simp +decide only [List.filterMap_append, List.filterMap_cons,
      List.filterMap_nil, filterMap_ite, ite_self, if_true, if_false,
      List.append_nil, List.nil_append]

/-- For a variable other than the two fortran ones, the entries of the
ascent emitter do not depend on the f_compiler result. -/
lemma asc_entries_fc_irrelevant (e : Env) (s : AscentSpec)
    (py fc1 fc2 : Option String) (cx : String) (n : String)
    (h1 : n ≠ "ENABLE_FORTRAN") (h2 : n ≠ "CMAKE_Fortran_COMPILER") :
    entriesFor n (Ascent.config_writes e s py fc1 cx) =
      entriesFor n (Ascent.config_writes e s py fc2 cx) := by
  have hfc : ∀ fc : Option String,
      (match fc with
       | some f =>
          [("ENABLE_FORTRAN", "ON"), ("CMAKE_Fortran_COMPILER", f)]
       | none =>
          [("ENABLE_FORTRAN", "OFF")]).filterMap
        (fun p : String × String =>
          if p.1 = n then some p.2 else none) = [] := by
    intro fc
    cases fc <;>
      simp [List.filterMap_cons, Ne.symm h1, Ne.symm h2]
  rw [entriesFor_eq_pairs, entriesFor_eq_pairs, asc_pairs, asc_pairs]
  simp only [List.filterMap_append, hfc]

/-! Helpers for absolute paths and non-empty file contents. -/

lemma isabs_abspath (cwd p : String) (h : os_path_isabs cwd = true) :
    os_path_isabs (os_path_abspath cwd p) = true := by
  unfold os_path_abspath
  split
  · next hp => exact hp
  · exact os_path_isabs_append _ _ (os_path_isabs_append _ _ h)

lemma renderAll_append_ne_empty_left
    (r : String → String → Option String → String) (l1 l2 : List Write)
    (h : renderAll r l1 ≠ "") : renderAll r (l1 ++ l2) ≠ "" := by
  rw [renderAll_append]
  exact string_append_ne_empty_left _ _ h

lemma renderAll_text_cons_ne_empty
    (r : String → String → Option String → String) (s : String)
    (ws : List Write) (h : s ≠ "") : renderAll r (.text s :: ws) ≠ "" :=
  string_append_ne_empty_left s _ h

lemma vtkh_content_ne_empty (e : Env) (s : VtkHSpec) :
    renderAll VtkH.cmake_cache_entry (VtkH.config_writes e s) ≠ "" := by
  simp only [VtkH.config_writes]
  repeat apply renderAll_append_ne_empty_left
  simp only [VtkH.header_writes]
  exact renderAll_text_cons_ne_empty _ _ _ (by decide)

lemma asc_content_ne_empty (e : Env) (s : AscentSpec)
    (py fc : Option String) (cx : String) :
    renderAll (fun n v _ => Ascent.cmake_cache_entry n v)
      (Ascent.config_writes e s py fc cx) ≠ "" := by
  simp only [Ascent.config_writes]
  repeat apply renderAll_append_ne_empty_left
  simp only [Ascent.header_writes]
  exact renderAll_text_cons_ne_empty _ _ _ (by decide)

/-! Helpers for the install drivers: the foldl loops as filters. -/

lemma foldl_rpath_filter (l acc : List String) :
    l.foldl
      (fun a arg =>
        if strContains arg "RPATH" = false then a ++ [arg] else a)
      acc =
      acc ++ l.filter (fun arg => !strContains arg "RPATH") := by
  induction l generalizing acc with
  | nil => simp
  | cons x xs ih =>
    simp only [List.foldl_cons, List.filter_cons]
    by_cases h : strContains x "RPATH" = false
    · rw [if_pos h, ih]
      simp [h]
    · rw [if_neg h, ih]
      have hx : strContains x "RPATH" = true := by
        cases hv : strContains x "RPATH"
        · exact absurd hv h
        · rfl
      simp [hx]

lemma foldl_vtkh_filter (sh : Bool) (l acc : List String) :
    l.foldl
      (fun a arg =>
        if strContains arg "CMAKE_BUILD_TYPE" = false then
          if sh then a ++ [arg]
          else if strContains arg "RPATH" = false then a ++ [arg] else a
        else a)
      acc =
      acc ++ l.filter
        (fun arg =>
          !strContains arg "CMAKE_BUILD_TYPE" &&
            (sh || !strContains arg "RPATH")) := by
  induction l generalizing acc with
  | nil => simp
  | cons x xs ih =>
    simp only [List.foldl_cons, List.filter_cons]
    by_cases h1 : strContains x "CMAKE_BUILD_TYPE" = false
    · rw [if_pos h1, ih]
      cases hsh : sh with
      | true => simp [h1]
      | false =>
        by_cases h2 : strContains x "RPATH" = false
        · simp [h1, h2]
        · have hx : strContains x "RPATH" = true := by
            cases hv : strContains x "RPATH"
            · exact absurd hv h2
            · rfl
          simp [h1, hx]
    · rw [if_neg h1, ih]
      have hx : strContains x "CMAKE_BUILD_TYPE" = true := by
        cases hv : strContains x "CMAKE_BUILD_TYPE"
        · exact absurd hv h1
        · rfl
      simp [hx]

/-! Definitions stated by the specification, for the refinement claims. -/

/-- The cache-entry shape the specification states: the statement line
set(NAME "VALUE" CACHE TYPE ""), terminated by its newline and followed
by a blank line. -/
def spec_cache_entry_shape (name value vtype : String) : String :=
  ("set(" ++ name ++ " \"" ++ value ++ "\" CACHE " ++ vtype ++ " \"\")"
    ++ "\n") ++ "\n"

/-- The host-config file-name pattern the specification states:
hostname, platform tag, compiler spec and package name, joined by dashes,
with the cmake suffix. -/
def spec_fname_pattern (host tag comp pkg : String) : String :=
  host ++ "-" ++ tag ++ "-" ++ comp ++ "-" ++ pkg ++ ".cmake"

/-! The claims. -/

/-- C1, counterexample: the claim says no flag cache variable is written
more than once, but on a concrete vtk-h build specification the
ENABLE_LOGGING variable (the logging flag) receives two cache entries. -/
theorem C1_counterexample :
    countEntry "ENABLE_LOGGING" (VtkH.config_writes env0 vtkhSpec0) = 2 ∧
    ¬ countEntry "ENABLE_LOGGING" (VtkH.config_writes env0 vtkhSpec0)
        ≤ 1 := by
  have h : countEntry "ENABLE_LOGGING" (VtkH.config_writes env0 vtkhSpec0)
      = 2 := by
    rw [countEntry, vtkh_val_ENABLE_LOGGING]
    decide
  exact ⟨h, by rw [h]; decide⟩

/-- C1, amended: for every build specification, each applicable feature
flag of the vtk-h and ascent emitters receives exactly one cache entry,
except the vtk-h logging flag, whose ENABLE_LOGGING variable is written
twice (the source repeats the logging block); the path-valued dependency
flags of ascent contribute their entry exactly when enabled. -/
theorem C1_theorem (e : Env) (sv : VtkHSpec) (sa : AscentSpec)
    (py fc : Option String) (cx : String) :
    countEntry "BUILD_SHARED_LIBS" (VtkH.config_writes e sv) = 1 ∧
    countEntry "ENABLE_TESTS" (VtkH.config_writes e sv) = 1 ∧
    countEntry "BUILD_TESTING" (VtkH.config_writes e sv) = 1 ∧
    countEntry "ENABLE_LOGGING" (VtkH.config_writes e sv) = 2 ∧
    countEntry "ENABLE_FILTER_CONTOUR_TREE" (VtkH.config_writes e sv)
      = 1 ∧
    countEntry "ENABLE_OPENMP" (VtkH.config_writes e sv) = 1 ∧
    countEntry "ENABLE_SERIAL" (VtkH.config_writes e sv) = 1 ∧
    countEntry "ENABLE_MPI" (VtkH.config_writes e sv) = 1 ∧
    countEntry "ENABLE_CUDA" (VtkH.config_writes e sv) = 1 ∧
    countEntry "BUILD_SHARED_LIBS" (Ascent.config_writes e sa py fc cx)
      = 1 ∧
    countEntry "ENABLE_PYTHON" (Ascent.config_writes e sa py fc cx)
      = 1 ∧
    countEntry "ENABLE_DOCS" (Ascent.config_writes e sa py fc cx) = 1 ∧
    countEntry "ENABLE_MPI" (Ascent.config_writes e sa py fc cx) = 1 ∧
    countEntry "ENABLE_CUDA" (Ascent.config_writes e sa py fc cx) = 1 ∧
    countEntry "ENABLE_OPENMP" (Ascent.config_writes e sa py fc cx)
      = 1 ∧
    countEntry "VTKM_DIR" (Ascent.config_writes e sa py fc cx)
      = (if sa.vtkh then 1 else 0) ∧
    countEntry "VTKH_DIR" (Ascent.config_writes e sa py fc cx)
      = (if sa.vtkh then 1 else 0) ∧
    countEntry "MFEM_DIR" (Ascent.config_writes e sa py fc cx)
      = (if sa.mfem then 1 else 0) ∧
    countEntry "ADIOS_DIR" (Ascent.config_writes e sa py fc cx)
      = (if sa.adios then 1 else 0) := by
  refine ⟨?_, ?_, ?_, ?_, ?_, ?_, ?_, ?_, ?_, ?_, ?_, ?_, ?_, ?_, ?_,
    ?_, ?_, ?_, ?_⟩ <;>
  simp [countEntry, vtkh_val_BUILD_SHARED_LIBS, vtkh_val_ENABLE_TESTS,
    vtkh_val_BUILD_TESTING, vtkh_val_ENABLE_LOGGING,
    vtkh_val_ENABLE_FILTER_CONTOUR_TREE, vtkh_val_ENABLE_OPENMP,
    vtkh_val_ENABLE_SERIAL, vtkh_val_ENABLE_MPI, vtkh_val_ENABLE_CUDA,
    asc_val_BUILD_SHARED_LIBS, asc_val_ENABLE_PYTHON,
    asc_val_ENABLE_DOCS, asc_val_ENABLE_MPI, asc_val_ENABLE_CUDA,
    asc_val_ENABLE_OPENMP, asc_val_VTKM_DIR, asc_val_VTKH_DIR,
    asc_val_MFEM_DIR, asc_val_ADIOS_DIR,
    List.length_append, length_ite, ite_self]

/-- C2, counterexample: on a concrete ascent build specification with
both the cuda and shared flags enabled, the ascent emitter writes
BUILD_SHARED_LIBS as ON, not the OFF the claim requires. -/
theorem C2_counterexample :
    ascentSpec0.cuda = true ∧ ascentSpec0.shared = true ∧
    entriesFor "BUILD_SHARED_LIBS"
      (Ascent.config_writes env0 ascentSpec0 none none "/usr/bin/cmake")
      = ["ON"] ∧
    entriesFor "BUILD_SHARED_LIBS"
      (Ascent.config_writes env0 ascentSpec0 none none "/usr/bin/cmake")
      ≠ ["OFF"] := by
  refine ⟨rfl, rfl, ?_, ?_⟩ <;> rw [asc_val_BUILD_SHARED_LIBS] <;> decide

/-- C2, amended: the vtk-h emitter forces BUILD_SHARED_LIBS to OFF
whenever the cuda flag is enabled, regardless of the shared flag; the
ascent emitter has no such forcing and sets BUILD_SHARED_LIBS from the
shared flag alone. -/
theorem C2_theorem (e : Env) (sv : VtkHSpec) (sa : AscentSpec)
    (py fc : Option String) (cx : String) (h : sv.cuda = true) :
    entriesFor "BUILD_SHARED_LIBS" (VtkH.config_writes e sv) = ["OFF"] ∧
    entriesFor "BUILD_SHARED_LIBS" (Ascent.config_writes e sa py fc cx)
      = (if sa.shared then ["ON"] else ["OFF"]) := by
  constructor
  · rw [vtkh_val_BUILD_SHARED_LIBS, if_pos h]
  · exact asc_val_BUILD_SHARED_LIBS e sa py fc cx

/-- C2, witness: the theorem applied at a concrete environment, a vtk-h
specification with cuda and shared both on, and a concrete ascent
specification. -/
theorem C2_witness :
    entriesFor "BUILD_SHARED_LIBS" (VtkH.config_writes env0 vtkhSpecCuda)
      = ["OFF"] ∧
    entriesFor "BUILD_SHARED_LIBS"
      (Ascent.config_writes env0 ascentSpec0 none none "/usr/bin/cmake")
      = (if ascentSpec0.shared then ["ON"] else ["OFF"]) :=
  C2_theorem env0 vtkhSpecCuda ascentSpec0 none none "/usr/bin/cmake" rfl

/-- C3: the cmake_install methods of the babelflow and pmt recipes read
the never-defined name cmake_args as their first statement, so for either
value of the shared flag they stop with a NameError and perform no make
call: the build and install steps are unreachable. -/
theorem C3_theorem : ∀ sh : Bool,
    (Babelflow.cmake_install sh).1 =
      Except.error "NameError: name cmake_args is not defined" ∧
    (Babelflow.cmake_install sh).2 = [] ∧
    (Pmt.cmake_install sh).1 =
      Except.error "NameError: name cmake_args is not defined" ∧
    (Pmt.cmake_install sh).2 = [] := by
  intro sh
  cases sh <;> exact ⟨rfl, rfl, rfl, rfl⟩

/-- C4: in the vtk-h emitter the emitted ENABLE_TESTS and BUILD_TESTING
values are the inverse of the test flag: OFF when the flag (described as
"Enable unit tests") is on, ON when it is off. -/
theorem C4_theorem (e : Env) (s : VtkHSpec) :
    entriesFor "ENABLE_TESTS" (VtkH.config_writes e s) =
      [if s.test then "OFF" else "ON"] ∧
    entriesFor "BUILD_TESTING" (VtkH.config_writes e s) =
      [if s.test then "OFF" else "ON"] := by
  constructor
  · rw [vtkh_val_ENABLE_TESTS]
    cases s.test <;> rfl
  · rw [vtkh_val_BUILD_TESTING]
    cases s.test <;> rfl

/-- C5: when the working directory is absolute, the path returned by the
vtk-h emitter is absolute and the bytes written are non-empty, and any
successful run of the ascent emitter likewise returns an absolute path
with non-empty bytes written. -/
theorem C5_theorem (w : World) (e : Env) (sv : VtkHSpec)
    (sa : AscentSpec) (py : Option String)
    (habs : os_path_isabs e.cwd = true) :
    os_path_isabs (VtkH.create_host_config w e sv).1 = true ∧
    (VtkH.create_host_config w e sv).2 ≠ "" ∧
    ∀ pr : String × String,
      Ascent.create_host_config w e sa py = Except.ok pr →
        os_path_isabs pr.1 = true ∧ pr.2 ≠ "" := by
  refine ⟨isabs_abspath e.cwd _ habs, vtkh_content_ne_empty e sv, ?_⟩
  intro pr hpr
  unfold Ascent.create_host_config at hpr
  cases hfind : Ascent.find_cmake e sa with
  | error m => rw [hfind] at hpr; exact absurd hpr (by simp)
  | ok cx =>
    rw [hfind] at hpr
    have hpr2 := hpr
    simp only [Except.ok.injEq] at hpr2
    rw [← hpr2]
    exact ⟨isabs_abspath e.cwd _ habs,
      asc_content_ne_empty e sa py (Ascent.f_compiler e sa) cx⟩

/-- C5, witness: the theorem applied at a concrete world, environment
with absolute working directory, and concrete specifications. -/
theorem C5_witness :
    os_path_isabs (VtkH.create_host_config world0 env0 vtkhSpec0).1
      = true ∧
    (VtkH.create_host_config world0 env0 vtkhSpec0).2 ≠ "" ∧
    ∀ pr : String × String,
      Ascent.create_host_config world0 env0 ascentSpec0 none =
          Except.ok pr →
        os_path_isabs pr.1 = true ∧ pr.2 ≠ "" :=
  C5_theorem world0 env0 vtkhSpec0 ascentSpec0 none (by decide)

/-- C6: with the cmake variant off and no cmake executable on the search
path, the ascent emitter stops with a RuntimeError carrying a non-empty
message and produces no host-config file (the error return carries no
path-content pair). -/
theorem C6_theorem (w : World) (e : Env) (s : AscentSpec)
    (py : Option String) (h1 : s.cmake = false)
    (h2 : e.which_cmake = none) :
    Ascent.create_host_config w e s py =
      Except.error "failed to find CMake (and cmake variant is off)" ∧
    "failed to find CMake (and cmake variant is off)" ≠ "" := by
  constructor
  · simp [Ascent.create_host_config, Ascent.find_cmake, h1, h2]
  · decide

/-- C6, witness: the theorem applied at a concrete environment in which
which("cmake") finds nothing and a specification with the cmake variant
off. -/
theorem C6_witness :
    Ascent.create_host_config world0 envNoCmake ascentSpecNoCmake none =
      Except.error "failed to find CMake (and cmake variant is off)" ∧
    "failed to find CMake (and cmake variant is off)" ≠ "" :=
  C6_theorem world0 envNoCmake ascentSpecNoCmake none rfl rfl

/-- C7: when no fortran compiler is available (f_compiler is None) and
cmake resolves, the ascent emitter raises no error, writes ENABLE_FORTRAN
as OFF, omits the CMAKE_Fortran_COMPILER entry, and every other cache
variable receives exactly the entries it would receive with any fortran
compiler present. -/
theorem C7_theorem (w : World) (e : Env) (s : AscentSpec)
    (py : Option String) (cx : String)
    (hfc : Ascent.f_compiler e s = none)
    (hcx : Ascent.find_cmake e s = Except.ok cx) :
    Ascent.create_host_config w e s py =
      Except.ok (os_path_abspath e.cwd (Ascent.host_cfg_fname e s),
        renderAll (fun n v _ => Ascent.cmake_cache_entry n v)
          (Ascent.config_writes e s py none cx)) ∧
    entriesFor "ENABLE_FORTRAN" (Ascent.config_writes e s py none cx)
      = ["OFF"] ∧
    entriesFor "CMAKE_Fortran_COMPILER"
      (Ascent.config_writes e s py none cx) = [] ∧
    ∀ (n : String) (fc2 : Option String), n ≠ "ENABLE_FORTRAN" →
      n ≠ "CMAKE_Fortran_COMPILER" →
        entriesFor n (Ascent.config_writes e s py none cx) =
          entriesFor n (Ascent.config_writes e s py fc2 cx) := by
  refine ⟨?_, ?_, ?_, ?_⟩
  · simp [Ascent.create_host_config, hcx, hfc]
  · rw [asc_val_ENABLE_FORTRAN]
    rfl
  · rw [asc_val_CMAKE_Fortran_COMPILER]
    rfl
  · intro n fc2 h1 h2
    exact asc_entries_fc_irrelevant e s py none fc2 cx n h1 h2

/-- C7, witness: the theorem applied at a concrete environment with no
fortran compiler (the compiler record has no fc entry) and a
specification whose cmake variant resolves the cmake path. -/
theorem C7_witness :
    Ascent.create_host_config world0 env0 ascentSpec0 none =
      Except.ok
        (os_path_abspath env0.cwd (Ascent.host_cfg_fname env0 ascentSpec0),
        renderAll (fun n v _ => Ascent.cmake_cache_entry n v)
          (Ascent.config_writes env0 ascentSpec0 none none
            "/usr/bin/cmake")) ∧
    entriesFor "ENABLE_FORTRAN"
      (Ascent.config_writes env0 ascentSpec0 none none "/usr/bin/cmake")
      = ["OFF"] ∧
    entriesFor "CMAKE_Fortran_COMPILER"
      (Ascent.config_writes env0 ascentSpec0 none none "/usr/bin/cmake")
      = [] ∧
    ∀ (n : String) (fc2 : Option String), n ≠ "ENABLE_FORTRAN" →
      n ≠ "CMAKE_Fortran_COMPILER" →
        entriesFor n
          (Ascent.config_writes env0 ascentSpec0 none none
            "/usr/bin/cmake") =
          entriesFor n
            (Ascent.config_writes env0 ascentSpec0 none fc2
              "/usr/bin/cmake") :=
  C7_theorem world0 env0 ascentSpec0 none "/usr/bin/cmake" rfl rfl

/-- C8, counterexample: with the shared flag on and a standard argument
list holding one CMAKE_BUILD_TYPE argument (and no RPATH argument), the
vtk-h install driver drops that argument instead of passing the list
through unchanged. -/
theorem C8_counterexample :
    vtkhSpec0.shared = true ∧
    strContains "-DCMAKE_BUILD_TYPE=RelWithDebInfo" "RPATH" = false ∧
    VtkH.install_cmake_args vtkhSpec0
        ["-DCMAKE_BUILD_TYPE=RelWithDebInfo"] "host.cmake" =
      ["-DCMAKE_BUILD_TYPE=Release", "-C", "host.cmake", "../src"] ∧
    "-DCMAKE_BUILD_TYPE=RelWithDebInfo" ∉
      VtkH.install_cmake_args vtkhSpec0
        ["-DCMAKE_BUILD_TYPE=RelWithDebInfo"] "host.cmake" := by
  decide

/-- C8, amended: the ascent install driver passes std_cmake_args through
unchanged when the shared flag is on and suppresses exactly the arguments
containing RPATH when it is off; the vtk-h install driver additionally
suppresses the arguments containing CMAKE_BUILD_TYPE in both cases,
appending its own Release build type. -/
theorem C8_theorem (sv : VtkHSpec) (sa : AscentSpec) (std : List String)
    (cfg1 cfg2 : String) :
    VtkH.install_cmake_args sv std cfg1 =
      std.filter
        (fun arg =>
          !strContains arg "CMAKE_BUILD_TYPE" &&
            (sv.shared || !strContains arg "RPATH")) ++
      ["-DCMAKE_BUILD_TYPE=Release"] ++ ["-C", cfg1, "../src"] ∧
    Ascent.install_cmake_args sa std cfg2 =
      (if sa.shared then std
       else std.filter (fun arg => !strContains arg "RPATH")) ++
      ["-C", cfg2, "../src"] := by
  constructor
  · unfold VtkH.install_cmake_args
    rw [foldl_vtkh_filter]
    simp
  · unfold Ascent.install_cmake_args
    cases hs : sa.shared
    · rw [if_neg (by simp [hs]), foldl_rpath_filter]
      simp
    · rw [if_pos (by simp [hs])]
      simp [hs]

/-- C9: every cache entry rendered by the cmake_cache_entry helpers has
exactly the shape the specification states, with the vtk-h default type
BOOL for ON and OFF values and PATH otherwise and the ascent type always
PATH, and both emitters name their file by the stated pattern. -/
theorem C9_theorem (n v t : String) (e : Env) (sv : VtkHSpec)
    (sa : AscentSpec) :
    VtkH.cmake_cache_entry n v none =
      spec_cache_entry_shape n v
        (if v = "ON" ∨ v = "OFF" then "BOOL" else "PATH") ∧
    VtkH.cmake_cache_entry n v (some t) = spec_cache_entry_shape n v t ∧
    Ascent.cmake_cache_entry n v = spec_cache_entry_shape n v "PATH" ∧
    VtkH.host_cfg_fname e sv =
      spec_fname_pattern e.hostname (sys_type e sv.architecture)
        sv.compiler "vtkh" ∧
    Ascent.host_cfg_fname e sa =
      spec_fname_pattern e.hostname (sys_type e sa.architecture)
        sa.compiler "ascent" := by
  refine ⟨?_, ?_, ?_, ?_, ?_⟩ <;>
    apply String.ext <;>
    simp [VtkH.cmake_cache_entry, Ascent.cmake_cache_entry,
      spec_cache_entry_shape, VtkH.host_cfg_fname, Ascent.host_cfg_fname,
      spec_fname_pattern, String.data_append, List.append_assoc]

/-- C10: the emitters read nothing run-dependent: over a fixed
environment, specification and arguments, two runs in different worlds
(different time, different randomness) return byte-identical path and
file contents. -/
theorem C10_theorem (w1 w2 : World) (e : Env) (sv : VtkHSpec)
    (sa : AscentSpec) (py : Option String) :
    VtkH.create_host_config w1 e sv = VtkH.create_host_config w2 e sv ∧
    Ascent.create_host_config w1 e sa py =
      Ascent.create_host_config w2 e sa py :=
  ⟨rfl, rfl⟩

end SpackRecipes

